import Mathlib

/-!
Verification of the NearbyPlaces repository.

Shallow embedding of the two scripts of the repository
(`NearbyPlaces.py` and `jsontoexcel.py`) and proofs of the
specification claims about them.

JSON values are modelled by an inductive type; numbers are carried
opaquely (no arithmetic is ever performed on them by the code under
verification).  Side-effecting collaborators (HTTP transport, the
filesystem, `time.sleep`) are modelled by explicit oracles, and the
observable effects (requests issued, delays performed, files written)
are returned as part of each function's result so that properties about
them can be stated.
-/

/-- A JSON value, as produced by Python's `json.load` /
`response.json()`: objects keep their native (insertion) key order. -/
inductive Json where
  | null
  | bool (b : Bool)
  | num (n : Int)
  | str (s : String)
  | arr (elems : List Json)
  | obj (fields : List (String × Json))
deriving Repr

/-- Key lookup in a JSON object (`d[k]` / `k in d`); `none` when the
value is not an object or the key is absent. -/
def jsonLookup (j : Json) (k : String) : Option Json :=
  match j with
  | .obj fs => fs.lookup k
  | _ => none

/-! ## `NearbyPlaces.py`: the paginated search client -/

/-- The query-parameter dictionary built by `search_nearby`
(lines 44–60) and mutated by the pagination loop (line 68). -/
structure SearchParams where
  location : String
  radius : Int
  key : String
  type : Option String
  keyword : Option String
  minprice : Option Int
  maxprice : Option Int
  opennow : Option String
  pagetoken : Option String
deriving Repr, DecidableEq

/-- Python truthiness of an optional string (`if next_page_token:` /
`if place_type:`): `None` and the empty string are falsy. -/
def truthy : Option String → Bool
  | none => false
  | some s => s ≠ ""

/-- A parsed successful response body, per the provider interface: a
`status` field, an optional `error_message`, an optional `results`
array and an optional continuation token (`data.get('next_page_token')`). -/
structure ApiResponse where
  status : String
  error_message : Option String
  results : Option (List Json)
  next_page_token : Option String
deriving Repr

/-- The outcome of one `requests.get` + `raise_for_status` + `.json()`
sequence, as observed by the `try` block of the pagination loop:
a transport failure (`requests.exceptions.RequestException`, which
includes the `raise_for_status` error), a malformed body
(`json.JSONDecodeError`), or a parsed response. -/
inductive HttpOutcome where
  | requestError
  | jsonError
  | success (data : ApiResponse)
deriving Repr

/-- Lines 67–68: if the pending token is truthy, store it into the
parameter dictionary (overwriting any previous token). -/
def stepParams (params : SearchParams) (tok : Option String) : SearchParams :=
  if truthy tok then { params with pagetoken := tok } else params

/-- Line 70: one `time.sleep(2)` is performed exactly when the pending
token is truthy. -/
def stepSleep (tok : Option String) : Nat :=
  if truthy tok then 1 else 0

/-- Result of a terminated run of the pagination loop: the accumulated
`all_results` list that the function returns, the parameter sets of the
HTTP requests issued (in order), and the number of `time.sleep(2)`
calls performed. -/
structure SearchRun where
  all_results : List Json
  requests : List SearchParams
  sleeps : Nat
deriving Repr

/-- The `while True` pagination loop of `search_nearby`
(`NearbyPlaces.py` lines 65–101).  `outcomes` is the transport oracle:
the outcome of each successive HTTP request.  The loop state is the
parameter dictionary, the pending `next_page_token`, the accumulator
`all_results`, and the traces of requests and sleeps.  `none` is
returned when the oracle is exhausted while the loop would issue a
further request (the run is not yet terminated). -/
def searchLoop : List HttpOutcome → SearchParams → Option String →
    List Json → List SearchParams → Nat → Option SearchRun
  | [], _, _, _, _, _ => none
  | o :: rest, params, tok, acc, reqs, sleeps =>
    let params' := stepParams params tok
    let sleeps' := sleeps + stepSleep tok
    let reqs' := reqs ++ [params']
    match o with
    | .requestError => some ⟨acc, reqs', sleeps'⟩
    | .jsonError => some ⟨acc, reqs', sleeps'⟩
    | .success data =>
      if data.status ≠ "OK" ∧ data.status ≠ "ZERO_RESULTS" then
        some ⟨acc, reqs', sleeps'⟩
      else
        let acc' := acc ++ data.results.getD []
        let tok' := data.next_page_token
        if truthy tok' then
          searchLoop rest params' tok' acc' reqs' sleeps'
        else
          some ⟨acc', reqs', sleeps'⟩

/-- Parameter building of `search_nearby` (lines 44–60): `location` is
the already-formatted `"lat,lng"` string; `type` and `keyword` are added
only when truthy, the price bounds when not `None`, `opennow` only when
the flag is set. -/
def buildParams (location : String) (radius : Int) (key : String)
    (place_type keyword : Option String) (min_price max_price : Option Int)
    (open_now : Bool) : SearchParams :=
  { location := location, radius := radius, key := key,
    type := if truthy place_type then place_type else none,
    keyword := if truthy keyword then keyword else none,
    minprice := min_price, maxprice := max_price,
    opennow := if open_now then some "true" else none,
    pagetoken := none }

/-- Embeds `GooglePlacesNearbySearch.search_nearby`: build the parameters and
run the pagination loop with an empty accumulator and no pending token. -/
def search_nearby (location : String) (radius : Int) (key : String)
    (place_type keyword : Option String) (min_price max_price : Option Int)
    (open_now : Bool) (outcomes : List HttpOutcome) : Option SearchRun :=
  searchLoop outcomes
    (buildParams location radius key place_type keyword min_price max_price open_now)
    none [] [] 0

/-- A response page with status `"OK"`, the given optional `results`
array and the given optional continuation token. -/
def okPage (tok : Option String) (results : Option (List Json)) : HttpOutcome :=
  .success { status := "OK", error_message := none, results := results,
             next_page_token := tok }

/-- Transport oracle for a clean paginated run: each element of `pages`
is one response carrying a continuation token and an optional results
array; `lastResults` is the final, token-less response. -/
def chainOutcomes (pages : List (String × Option (List Json)))
    (lastResults : Option (List Json)) : List HttpOutcome :=
  pages.map (fun q => okPage (some q.1) q.2) ++ [okPage none lastResults]

/-- An outcome on which the `while` loop breaks without touching the
accumulator: transport failure, malformed body, or a status that is
neither `"OK"` nor `"ZERO_RESULTS"`. -/
def isFailure : HttpOutcome → Bool
  | .requestError => true
  | .jsonError => true
  | .success d => d.status ≠ "OK" && d.status ≠ "ZERO_RESULTS"

/-! ## `NearbyPlaces.py`: the record formatter -/

/-- Python `d.get(k, default)`: returns the stored value or the default
when the receiver is a dict; `none` models the `AttributeError` raised
when `.get` is invoked on a non-dict value. -/
def pyGet (j : Json) (k : String) (d : Json) : Option Json :=
  match j with
  | .obj fs => some ((fs.lookup k).getD d)
  | _ => none

/-- Python `len(...)` on a JSON value: defined for lists, strings and
dicts; `none` models the `TypeError` raised on other values. -/
def pyLen : Json → Option Nat
  | .arr xs => some xs.length
  | .str s => some s.length
  | .obj fs => some fs.length
  | _ => none

/-- Lines 116–122 of `format_place_info`: the seven entries obtained by
a direct `place.get(...)` with a default. -/
def formatBasics (place : Json) : Option (List (String × Json)) :=
  (pyGet place "name" (.str "N/A")).bind fun name =>
  (pyGet place "place_id" (.str "N/A")).bind fun place_id =>
  (pyGet place "rating" (.str "N/A")).bind fun rating =>
  (pyGet place "user_ratings_total" (.num 0)).bind fun urtotal =>
  (pyGet place "price_level" (.str "N/A")).bind fun price_level =>
  (pyGet place "types" (.arr [])).bind fun types =>
  (pyGet place "vicinity" (.str "N/A")).bind fun vicinity =>
  some [("name", name), ("place_id", place_id), ("rating", rating),
        ("user_ratings_total", urtotal), ("price_level", price_level),
        ("types", types), ("vicinity", vicinity)]

/-- Lines 123–126: the `geometry` entry,
`place.get('geometry', {}).get('location', {}).get('lat'/'lng', 'N/A')`. -/
def formatGeometry (place : Json) : Option Json :=
  (pyGet place "geometry" (.obj [])).bind fun geometry =>
  (pyGet geometry "location" (.obj [])).bind fun location =>
  (pyGet location "lat" (.str "N/A")).bind fun lat =>
  (pyGet location "lng" (.str "N/A")).bind fun lng =>
  some (.obj [("lat", lat), ("lng", lng)])

/-- Line 127: `place.get('opening_hours', {}).get('open_now', 'Unknown')`. -/
def formatOpenNow (place : Json) : Option Json :=
  (pyGet place "opening_hours" (.obj [])).bind fun opening_hours =>
  pyGet opening_hours "open_now" (.str "Unknown")

/-- Line 128: `len(place.get('photos', [])) > 0`. -/
def formatPhotos (place : Json) : Option Json :=
  (pyGet place "photos" (.arr [])).bind fun photos =>
  (pyLen photos).bind fun nphotos =>
  some (.bool (decide (0 < nphotos)))

/-- Embeds `GooglePlacesNearbySearch.format_place_info` (lines 105–129),
value for value.  The result is the output dict as an ordered key/value
list; `none` models an uncaught Python exception (e.g. `.get` on a
non-dict `geometry` value). -/
def format_place_info (place : Json) : Option (List (String × Json)) :=
  (formatBasics place).bind fun basics =>
  (formatGeometry place).bind fun geometry =>
  (formatOpenNow place).bind fun open_now =>
  (formatPhotos place).bind fun photos =>
  some (basics ++ [("geometry", geometry), ("open_now", open_now),
                   ("photos", photos)])

/-- Either `none` or a JSON object. -/
def isObjOpt : Option Json → Bool
  | none => true
  | some (.obj _) => true
  | _ => false

/-- Either `none` or a JSON array. -/
def isArrOpt : Option Json → Bool
  | none => true
  | some (.arr _) => true
  | _ => false

/-- Field `geometry` absent, or an object whose `location` is absent or an
object. -/
def geometryOk : Option Json → Bool
  | none => true
  | some (.obj gs) => isObjOpt (gs.lookup "location")
  | _ => false

/-- A place record as delivered by the provider: a mapping whose
`geometry` (and nested `location`), `opening_hours` and `photos`
fields, when present, have their provider-documented shapes.  Any field
may be absent. -/
def wellFormedPlace : Json → Bool
  | .obj fs =>
    geometryOk (fs.lookup "geometry") &&
    isObjOpt (fs.lookup "opening_hours") &&
    isArrOpt (fs.lookup "photos")
  | _ => false

/-- Total lookup-with-default on a record (the value `place.get(k, d)`
produces on a dict). -/
def getOr (j : Json) (k : String) (d : Json) : Json :=
  match j with
  | .obj fs => (fs.lookup k).getD d
  | _ => d

/-- The `photos` list of a record (empty when absent). -/
def photosList (place : Json) : List Json :=
  match jsonLookup place "photos" with
  | some (.arr xs) => xs
  | _ => []

/-- The ordered key list of the output of `format_place_info`. -/
def formatKeys : List String :=
  ["name", "place_id", "rating", "user_ratings_total", "price_level",
   "types", "vicinity", "geometry", "open_now", "photos"]

/-- The output `format_place_info` produces on a well-formed record,
written with total getters. -/
def formatOut (place : Json) : List (String × Json) :=
  [("name", getOr place "name" (.str "N/A")),
   ("place_id", getOr place "place_id" (.str "N/A")),
   ("rating", getOr place "rating" (.str "N/A")),
   ("user_ratings_total", getOr place "user_ratings_total" (.num 0)),
   ("price_level", getOr place "price_level" (.str "N/A")),
   ("types", getOr place "types" (.arr [])),
   ("vicinity", getOr place "vicinity" (.str "N/A")),
   ("geometry", .obj
     [("lat", getOr (getOr (getOr place "geometry" (.obj [])) "location" (.obj [])) "lat" (.str "N/A")),
      ("lng", getOr (getOr (getOr place "geometry" (.obj [])) "location" (.obj [])) "lng" (.str "N/A"))]),
   ("open_now", getOr (getOr place "opening_hours" (.obj [])) "open_now" (.str "Unknown")),
   ("photos", .bool (decide (0 < (photosList place).length)))]

/-! ## `jsontoexcel.py`: the multi-file loader -/

/-- The outcome of `open` + `json.load` on one path, as observed by the
`try` block of `load_multiple_json_files`: the three caught exception
classes, or the parsed document. -/
inductive LoadOutcome where
  | notFound
  | invalidJson
  | otherError
  | ok (data : Json)

/-- Did the file load successfully? -/
def isOkOutcome : LoadOutcome → Bool
  | .ok _ => true
  | _ => false

/-- Python `d[k] = v` on an insertion-ordered dict (represented as an
association list with distinct keys): replace in place when the key
exists, append otherwise. -/
def dictInsert {α : Type} : List (String × α) → String → α → List (String × α)
  | [], k, v => [(k, v)]
  | (k', v') :: rest, k, v =>
    if k' = k then (k, v) :: rest else (k', v') :: dictInsert rest k v

/-- Python `Path(file_path).name` for POSIX file paths: the part after the
last separator. -/
def afterLastSlash (cs : List Char) : List Char :=
  cs.foldl (fun acc c => if c = '/' then [] else acc ++ [c]) []

/-- Python `name.rfind('.')`: index of the last dot, if any. -/
def rfindDot (cs : List Char) : Option Nat :=
  match cs.reverse.findIdx? (fun c => c = '.') with
  | none => none
  | some j => some (cs.length - 1 - j)

/-- Python `PurePath.stem`: the name with its suffix removed, where the suffix
is `name[i:]` for `i = name.rfind('.')` only when `0 < i < len(name)-1`. -/
def stemChars (name : List Char) : List Char :=
  match rfindDot name with
  | some i => if 0 < i ∧ i < name.length - 1 then name.take i else name
  | none => name

/-- Python `Path(file_path).stem`. -/
def pathStem (p : String) : String :=
  String.mk (stemChars (afterLastSlash p.data))

/-- The `for file_path in file_paths` loop of `load_multiple_json_files`
(lines 20–33): `fsys` is the filesystem oracle.  Returns the final
`self.json_data` dict and the `successful_loads` counter. -/
def loadLoop (fsys : String → LoadOutcome) :
    List String → List (String × Json) → List (String × Json) × Nat
  | [], json_data => (json_data, 0)
  | p :: rest, json_data =>
    match fsys p with
    | .ok d =>
      let r := loadLoop fsys rest (dictInsert json_data (pathStem p) d)
      (r.1, r.2 + 1)
    | _ => loadLoop fsys rest json_data

/-- Embeds `MultipleJSONToSingleExcelConverter.load_multiple_json_files`
(lines 16–36): runs the loop on the current `self.json_data` and
returns the updated dict together with `successful_loads > 0`. -/
def load_multiple_json_files (fsys : String → LoadOutcome)
    (file_paths : List String) (json_data : List (String × Json)) :
    List (String × Json) × Bool :=
  let r := loadLoop fsys file_paths json_data
  (r.1, decide (0 < r.2))

/-- Embeds `MultipleJSONToSingleExcelConverter.load_from_directory`
(lines 38–46): `globFiles` is the result of the glob; an empty match
list reports failure without loading anything. -/
def load_from_directory (globFiles : List String)
    (fsys : String → LoadOutcome) (json_data : List (String × Json)) :
    List (String × Json) × Bool :=
  if globFiles.isEmpty then (json_data, false)
  else load_multiple_json_files fsys globFiles json_data

/-! ## `jsontoexcel.py`: shape normalization and concatenation -/

/-- A dataframe: an explicit column list and one cell list per row
(a row stores only the cells its source record produced; a column
missing from a row is a `NaN` cell). -/
structure Table where
  cols : List String
  rows : List (List (String × Json))
deriving Repr

/-- Key-path join used when flattening nested mappings (`sep='.'`). -/
def joinKey (pre k : String) : String :=
  if pre = "" then k else pre ++ "." ++ k

/-- Models the `pandas` `nested_to_record` helper, the record flattener underlying
`pd.json_normalize`: nested mappings are recursively flattened into
dot-joined keys; every other value is kept as a single cell. -/
def flattenFields : String → List (String × Json) → List (String × Json)
  | _, [] => []
  | pre, (k, Json.obj gs) :: rest =>
    flattenFields (joinKey pre k) gs ++ flattenFields pre rest
  | pre, (k, v) :: rest => (joinKey pre k, v) :: flattenFields pre rest
termination_by _ fs => sizeOf fs

/-- One record of `pd.json_normalize`'s input: a mapping is flattened
into a row; `none` models the exception raised on a non-mapping record
(caught by the per-file `except` and turning into a skip). -/
def rowOfRecord : Json → Option (List (String × Json))
  | .obj fs => some (flattenFields "" fs)
  | _ => none

/-- Append a column name if it is not already present (first-seen
column order, as `pandas` keeps it). -/
def insertNew (acc : List String) (k : String) : List String :=
  if acc.contains k then acc else acc ++ [k]

/-- The column list of a normalized frame: union of the rows' keys in
first-appearance order. -/
def unionKeys (rows : List (List (String × Json))) : List String :=
  rows.foldl (fun acc r => (r.map Prod.fst).foldl insertNew acc) []

/-- Normalize each record into a row; any failing record fails the
whole frame (the exception propagates out of `pd.json_normalize`). -/
def normalizeRows : List Json → Option (List (List (String × Json)))
  | [] => some []
  | r :: rest =>
    (rowOfRecord r).bind fun row =>
    (normalizeRows rest).map fun rows => row :: rows

/-- Models `pd.json_normalize` on a list of records. -/
def json_normalize (records : List Json) : Option Table :=
  (normalizeRows records).map fun rows =>
    { cols := unionKeys rows, rows := rows }

/-- Python `isinstance(value, list)`. -/
def isArrVal : Json → Bool
  | .arr _ => true
  | _ => false

/-- Lines 66–69: the first list-valued field of a mapping, in the
mapping's native key iteration order. -/
def firstListValue : List (String × Json) → Option (List Json)
  | [] => none
  | (_, Json.arr xs) :: _ => some xs
  | _ :: rest => firstListValue rest

/-- The per-file conversion of `combine_json_data` (lines 59–75): a
list is normalized directly; a mapping with a list-valued field
(`any(isinstance(v, list) for v in data.values())`) is normalized from
the first such field (discarding the rest of the mapping); a mapping
without one becomes a single-row frame; any other shape — or a
normalization error — skips the file (`none`). -/
def fileFrame : Json → Option Table
  | .arr xs => json_normalize xs
  | .obj fs =>
    if fs.any (fun p => isArrVal p.2) then
      match firstListValue fs with
      | some xs => json_normalize xs
      | none => none
    else json_normalize [Json.obj fs]
  | _ => none

/-- Lines 78–79: `df['source_file'] = filename` — the provenance
column, appended (or overwritten in place) on every row. -/
def addSourceColumn (t : Table) (filename : String) : Table :=
  { cols := insertNew t.cols "source_file",
    rows := t.rows.map fun r => dictInsert r "source_file" (Json.str filename) }

/-- The `all_dataframes` list built by the `for filename, data in
self.json_data.items()` loop (lines 56–86): skipped files contribute
nothing. -/
def framesOf (json_data : List (String × Json)) (add_source_column : Bool) :
    List Table :=
  json_data.filterMap fun p =>
    (fileFrame p.2).map fun t =>
      if add_source_column then addSourceColumn t p.1 else t

/-- Models `pd.concat(all_dataframes, ignore_index=True, sort=False)`:
columns are unioned in first-appearance order, rows concatenated; a row
has a `NaN` cell at every column absent from it. -/
def concatTables (ts : List Table) : Table :=
  { cols := ts.foldl (fun acc t => t.cols.foldl insertNew acc) [],
    rows := (ts.map Table.rows).flatten }

/-- Models `fillna('')` on one cell: a missing (`NaN`) or `None` cell becomes
the empty string. -/
def fillCell : Option Json → Json
  | none => Json.str ""
  | some Json.null => Json.str ""
  | some v => v

/-- A row of the combined frame after `fillna('')`: one cell for every
column of the frame. -/
def materializeRow (cols : List String) (r : List (String × Json)) :
    List (String × Json) :=
  cols.map fun c => (c, fillCell (r.lookup c))

/-- Embeds `MultipleJSONToSingleExcelConverter.combine_json_data`
(lines 48–104): `none` when the method returns `False` (no data loaded,
or every file skipped); otherwise the combined, `fillna('')`-filled
frame. -/
def combine_json_data (json_data : List (String × Json))
    (add_source_column : Bool) : Option Table :=
  if json_data.isEmpty then none
  else
    let frames := framesOf json_data add_source_column
    if frames.isEmpty then none
    else
      let t := concatTables frames
      some { cols := t.cols, rows := t.rows.map (materializeRow t.cols) }

/-- Embeds `save_to_excel_simple` (lines 106–118): with no combined frame it
reports failure and writes nothing; otherwise the write succeeds or
fails according to the filesystem oracle `writeOk`.  The second
component is the content written to the output file (`none` = no file
written). -/
def save_to_excel_simple (combined_df : Option Table) (writeOk : Bool) :
    Bool × Option Table :=
  match combined_df with
  | none => (false, none)
  | some t => if writeOk then (true, some t) else (false, none)

/-- The `__main__` pipeline of `jsontoexcel.py` (lines 312–328):
load from directory, combine with provenance, save.  Returns the three
success flags and the written output. -/
def mainPipeline (globFiles : List String) (fsys : String → LoadOutcome)
    (writeOk : Bool) : Bool × Bool × Bool × Option Table :=
  let r1 := load_from_directory globFiles fsys []
  let df := combine_json_data r1.1 true
  let r3 := save_to_excel_simple df writeOk
  (r1.2, df.isSome, r3.1, r3.2)

/-! ## Lemmas about the pagination loop -/

/-- On a failure outcome the loop breaks at once: the result does not
depend on the remaining oracle entries and carries the accumulator
unchanged. -/
lemma searchLoop_stop (o : HttpOutcome) (ho : isFailure o = true)
    (rest : List HttpOutcome) (params : SearchParams) (tok : Option String)
    (acc : List Json) (reqs : List SearchParams) (sleeps : Nat) :
    searchLoop (o :: rest) params tok acc reqs sleeps =
      some ⟨acc, reqs ++ [stepParams params tok], sleeps + stepSleep tok⟩ := by
  cases o with
  | requestError => simp [searchLoop]
  | jsonError => simp [searchLoop]
  | success d =>
    simp only [isFailure, Bool.and_eq_true, decide_eq_true_eq] at ho
    simp [searchLoop, ho.1, ho.2]

/-- One step of the loop on a successful `"OK"` page. -/
lemma searchLoop_okPage (t : Option String) (res : Option (List Json))
    (rest : List HttpOutcome) (params : SearchParams) (tok : Option String)
    (acc : List Json) (reqs : List SearchParams) (sleeps : Nat) :
    searchLoop (okPage t res :: rest) params tok acc reqs sleeps =
      if truthy t then
        searchLoop rest (stepParams params tok) t (acc ++ res.getD [])
          (reqs ++ [stepParams params tok]) (sleeps + stepSleep tok)
      else
        some ⟨acc ++ res.getD [], reqs ++ [stepParams params tok],
              sleeps + stepSleep tok⟩ := by
  simp [searchLoop, okPage]

/-- Processing a chain of token-bearing `"OK"` pages with a pending
nonempty token, followed by any tail on which the loop halts uniformly:
one request and one sleep per page, each request carrying the page's
token over the same base parameters. -/
lemma searchLoop_chain (pages : List (String × Option (List Json)))
    (tail : List HttpOutcome) (X : List Json)
    (htail : ∀ params tok acc reqs sleeps,
      searchLoop tail params tok acc reqs sleeps =
        some ⟨acc ++ X, reqs ++ [stepParams params tok], sleeps + stepSleep tok⟩)
    (hp : ∀ q ∈ pages, q.1 ≠ "") :
    ∀ (params : SearchParams) (s : String), s ≠ "" →
    ∀ (acc : List Json) (reqs : List SearchParams) (sleeps : Nat),
    searchLoop (pages.map (fun q => okPage (some q.1) q.2) ++ tail)
        params (some s) acc reqs sleeps =
      some ⟨acc ++ (pages.map (fun q => q.2.getD [])).flatten ++ X,
            reqs ++ { params with pagetoken := some s } ::
              pages.map (fun q => { params with pagetoken := some q.1 }),
            sleeps + pages.length + 1⟩ := by
  induction pages with
  | nil =>
    intro params s hs acc reqs sleeps
    have h := htail params (some s) acc reqs sleeps
    simpa [stepParams, stepSleep, truthy, hs] using h
  | cons q qs ih =>
    intro params s hs acc reqs sleeps
    have hq : q.1 ≠ "" := hp q (by simp)
    have hqs : ∀ r ∈ qs, r.1 ≠ "" := fun r hr => hp r (by simp [hr])
    rw [List.map_cons, List.cons_append, searchLoop_okPage,
      if_pos (show truthy (some q.1) = true by simp [truthy, hq])]
    have hstep : stepParams params (some s) = { params with pagetoken := some s } := by
      simp [stepParams, truthy, hs]
    have hsleep : stepSleep (some s) = 1 := by
      simp [stepSleep, truthy, hs]
    rw [hstep, hsleep,
      ih hqs { params with pagetoken := some s } q.1 hq]
    simp [List.append_assoc]
    omega

/-- The loop on the final, token-less `"OK"` page: append its results
and stop. -/
lemma searchLoop_lastPage (lastResults : Option (List Json))
    (params : SearchParams) (tok : Option String) (acc : List Json)
    (reqs : List SearchParams) (sleeps : Nat) :
    searchLoop [okPage none lastResults] params tok acc reqs sleeps =
      some ⟨acc ++ lastResults.getD [], reqs ++ [stepParams params tok],
            sleeps + stepSleep tok⟩ := by
  rw [searchLoop_okPage]
  simp [truthy]

/-- C1: a run of `search_nearby` in which the provider returns `N`
successive token-bearing success pages and then one token-less success
page issues exactly `N + 1` HTTP requests and sleeps exactly `N` times:
the first request carries the original parameters (no token, and no
delay before it), and the `i`-th follow-up request carries the `i`-th
token with every other filter parameter unchanged. -/
theorem search_nearby_pagination (location : String) (radius : Int)
    (key : String) (place_type keyword : Option String)
    (min_price max_price : Option Int) (open_now : Bool)
    (pages : List (String × Option (List Json)))
    (lastResults : Option (List Json))
    (hp : ∀ q ∈ pages, q.1 ≠ "") :
    search_nearby location radius key place_type keyword min_price max_price
        open_now (chainOutcomes pages lastResults) =
      some ⟨(pages.map (fun q => q.2.getD [])).flatten ++ lastResults.getD [],
            buildParams location radius key place_type keyword min_price
                max_price open_now ::
              pages.map (fun q =>
                { buildParams location radius key place_type keyword min_price
                    max_price open_now with pagetoken := some q.1 }),
            pages.length⟩ ∧
    (buildParams location radius key place_type keyword min_price max_price
        open_now ::
      pages.map (fun q =>
        { buildParams location radius key place_type keyword min_price
            max_price open_now with pagetoken := some q.1 })).length
      = pages.length + 1 := by
  refine ⟨?_, by simp⟩
  cases pages with
  | nil =>
    simpa [search_nearby, chainOutcomes, stepParams, stepSleep, truthy] using
      searchLoop_lastPage lastResults
        (buildParams location radius key place_type keyword min_price max_price open_now)
        none [] [] 0
  | cons q qs =>
    have hq : q.1 ≠ "" := hp q (by simp)
    have hqs : ∀ r ∈ qs, r.1 ≠ "" := fun r hr => hp r (by simp [hr])
    simp only [search_nearby, chainOutcomes, List.map_cons, List.cons_append]
    rw [searchLoop_okPage,
      if_pos (show truthy (some q.1) = true by simp [truthy, hq])]
    simp only [show ∀ p : SearchParams, stepParams p none = p from fun _ => rfl,
      show stepSleep none = 0 from rfl, List.nil_append, Nat.add_zero]
    rw [searchLoop_chain qs [okPage none lastResults] (lastResults.getD [])
      (searchLoop_lastPage lastResults) hqs
      (buildParams location radius key place_type keyword min_price max_price open_now)
      q.1 hq (q.2.getD [])
      [buildParams location radius key place_type keyword min_price max_price open_now] 0]
    simp [List.append_assoc]

/-- Concrete two-token page chain used to witness the pagination claim. -/
def c1pages : List (String × Option (List Json)) :=
  [("t1", some [Json.num 1]), ("t2", none)]

/-- Witness for `search_nearby_pagination` at a concrete two-token run:
3 requests, 2 sleeps. -/
theorem search_nearby_pagination_witness :
    (∀ q ∈ c1pages, q.1 ≠ "") ∧
    (search_nearby "47,-122" 807 "K" none none none none false
        (chainOutcomes c1pages (some [Json.num 2])) =
      some ⟨(c1pages.map (fun q => q.2.getD [])).flatten ++
              (some [Json.num 2] : Option (List Json)).getD [],
            buildParams "47,-122" 807 "K" none none none none false ::
              c1pages.map (fun q =>
                { buildParams "47,-122" 807 "K" none none none none false with
                    pagetoken := some q.1 }),
            c1pages.length⟩ ∧
    (buildParams "47,-122" 807 "K" none none none none false ::
      c1pages.map (fun q =>
        { buildParams "47,-122" 807 "K" none none none none false with
            pagetoken := some q.1 })).length = c1pages.length + 1) :=
  ⟨by decide,
   search_nearby_pagination "47,-122" 807 "K" none none none none false
     c1pages (some [Json.num 2]) (by decide)⟩

/-- C2: when a failure outcome arrives — transport failure, malformed
body, or a status other than `"OK"`/`"ZERO_RESULTS"` — after any chain
of token-bearing success pages, `search_nearby` stops at that request
(whatever the transport would do afterwards is never consulted) and
returns the records accumulated from the earlier pages as an ordinary
list. -/
theorem search_nearby_failure_aborts (location : String) (radius : Int)
    (key : String) (place_type keyword : Option String)
    (min_price max_price : Option Int) (open_now : Bool)
    (pages : List (String × Option (List Json)))
    (o : HttpOutcome) (rest : List HttpOutcome)
    (hp : ∀ q ∈ pages, q.1 ≠ "") (ho : isFailure o = true) :
    search_nearby location radius key place_type keyword min_price max_price
        open_now (pages.map (fun q => okPage (some q.1) q.2) ++ o :: rest) =
      some ⟨(pages.map (fun q => q.2.getD [])).flatten,
            buildParams location radius key place_type keyword min_price
                max_price open_now ::
              pages.map (fun q =>
                { buildParams location radius key place_type keyword min_price
                    max_price open_now with pagetoken := some q.1 }),
            pages.length⟩ := by
  have htail : ∀ (params : SearchParams) (tok : Option String) (acc : List Json)
      (reqs : List SearchParams) (sleeps : Nat),
      searchLoop (o :: rest) params tok acc reqs sleeps =
        some ⟨acc ++ [], reqs ++ [stepParams params tok], sleeps + stepSleep tok⟩ := by
    intro params tok acc reqs sleeps
    simpa using searchLoop_stop o ho rest params tok acc reqs sleeps
  cases pages with
  | nil =>
    simpa [search_nearby, stepParams, stepSleep, truthy] using
      htail (buildParams location radius key place_type keyword min_price max_price open_now)
        none [] [] 0
  | cons q qs =>
    have hq : q.1 ≠ "" := hp q (by simp)
    have hqs : ∀ r ∈ qs, r.1 ≠ "" := fun r hr => hp r (by simp [hr])
    simp only [search_nearby, List.map_cons, List.cons_append]
    rw [searchLoop_okPage,
      if_pos (show truthy (some q.1) = true by simp [truthy, hq])]
    simp only [show ∀ p : SearchParams, stepParams p none = p from fun _ => rfl,
      show stepSleep none = 0 from rfl, List.nil_append, Nat.add_zero]
    rw [searchLoop_chain qs (o :: rest) [] htail hqs
      (buildParams location radius key place_type keyword min_price max_price open_now)
      q.1 hq (q.2.getD [])
      [buildParams location radius key place_type keyword min_price max_price open_now] 0]
    simp [List.append_assoc]

/-- Witness for `search_nearby_failure_aborts`: one token page, then a
response with an error status; the single page's record is returned. -/
theorem search_nearby_failure_aborts_witness :
    (∀ q ∈ [(("t1" : String), some [Json.num 1])], q.1 ≠ "") ∧
    isFailure (.success { status := "OVER_QUERY_LIMIT", error_message := some "quota",
                          results := none, next_page_token := none }) = true ∧
    search_nearby "47,-122" 807 "K" none none none none false
        ([(("t1" : String), some [Json.num 1])].map (fun q => okPage (some q.1) q.2) ++
          .success { status := "OVER_QUERY_LIMIT", error_message := some "quota",
                     results := none, next_page_token := none } :: []) =
      some ⟨([(("t1" : String), some [Json.num 1])].map (fun q => q.2.getD [])).flatten,
            buildParams "47,-122" 807 "K" none none none none false ::
              [(("t1" : String), some [Json.num 1])].map (fun q =>
                { buildParams "47,-122" 807 "K" none none none none false with
                    pagetoken := some q.1 }),
            [(("t1" : String), some [Json.num 1])].length⟩ :=
  ⟨by decide, by decide,
   search_nearby_failure_aborts "47,-122" 807 "K" none none none none false
     [("t1", some [Json.num 1])]
     (.success { status := "OVER_QUERY_LIMIT", error_message := some "quota",
                 results := none, next_page_token := none }) []
     (by decide) (by decide)⟩

/-- C6 (amended): when the next response has status `"ZERO_RESULTS"`,
carries no truthy continuation token and an empty or absent results
array, the pagination loop terminates at that response with the
accumulator unchanged.  (The code treats `"ZERO_RESULTS"` exactly like
`"OK"`: termination is decided by the token alone, and any results the
response did carry would be appended — see
`search_nearby_zero_results_counterexample`.) -/
theorem searchLoop_zero_results_stops (d : ApiResponse)
    (rest : List HttpOutcome) (params : SearchParams) (tok : Option String)
    (acc : List Json) (reqs : List SearchParams) (sleeps : Nat)
    (hstatus : d.status = "ZERO_RESULTS")
    (htok : truthy d.next_page_token = false)
    (hres : d.results.getD [] = []) :
    searchLoop (.success d :: rest) params tok acc reqs sleeps =
      some ⟨acc, reqs ++ [stepParams params tok], sleeps + stepSleep tok⟩ := by
  simp [searchLoop, hstatus, htok, hres]

/-- A provider-typical `ZERO_RESULTS` response: empty results array,
no continuation token. -/
def zeroResultsEmpty : ApiResponse :=
  { status := "ZERO_RESULTS", error_message := none, results := some [],
    next_page_token := none }

/-- A pathological `ZERO_RESULTS` response carrying both a record and a
continuation token. -/
def zeroResultsWithToken : ApiResponse :=
  { status := "ZERO_RESULTS", error_message := none,
    results := some [Json.num 1], next_page_token := some "t" }

/-- Witness for `searchLoop_zero_results_stops`: a bare `ZERO_RESULTS`
response on the first request terminates the run with an empty result. -/
theorem searchLoop_zero_results_stops_witness :
    zeroResultsEmpty.status = "ZERO_RESULTS" ∧
    truthy zeroResultsEmpty.next_page_token = false ∧
    zeroResultsEmpty.results.getD [] = [] ∧
    searchLoop [.success zeroResultsEmpty]
        (buildParams "47,-122" 807 "K" none none none none false) none [] [] 0 =
      some ⟨[], [] ++ [stepParams (buildParams "47,-122" 807 "K" none none none none false) none],
            0 + stepSleep none⟩ :=
  ⟨rfl, rfl, rfl,
   searchLoop_zero_results_stops zeroResultsEmpty
     [] (buildParams "47,-122" 807 "K" none none none none false) none [] [] 0
     rfl rfl rfl⟩

/-- Counterexample to C6 as stated: a `ZERO_RESULTS` response that
carries a (nonempty) continuation token and a nonempty results array
does not terminate the pagination loop — a second request is issued and
one delay performed — and the accumulator takes the response's record.
The status check of line 80 lets `"ZERO_RESULTS"` through exactly like
`"OK"`; termination is decided solely by the token of line 92. -/
theorem search_nearby_zero_results_counterexample :
    (search_nearby "47,-122" 807 "K" none none none none false
        [.success zeroResultsWithToken, .requestError]).map
      (fun run => (run.requests.length, run.all_results, run.sleeps)) =
    some (2, [Json.num 1], 1) := rfl

/-! ## Lemmas about the record formatter -/

/-- The seven direct entries always succeed on a dict input. -/
lemma formatBasics_obj (fs : List (String × Json)) :
    formatBasics (Json.obj fs) = some
      [("name", getOr (Json.obj fs) "name" (.str "N/A")),
       ("place_id", getOr (Json.obj fs) "place_id" (.str "N/A")),
       ("rating", getOr (Json.obj fs) "rating" (.str "N/A")),
       ("user_ratings_total", getOr (Json.obj fs) "user_ratings_total" (.num 0)),
       ("price_level", getOr (Json.obj fs) "price_level" (.str "N/A")),
       ("types", getOr (Json.obj fs) "types" (.arr [])),
       ("vicinity", getOr (Json.obj fs) "vicinity" (.str "N/A"))] := by
  simp [formatBasics, pyGet, getOr]

/-- With a well-shaped (or absent) `geometry` field the nested
coordinate extraction succeeds. -/
lemma formatGeometry_wf (fs : List (String × Json))
    (hg : geometryOk (fs.lookup "geometry") = true) :
    formatGeometry (Json.obj fs) = some (Json.obj
      [("lat", getOr (getOr (getOr (Json.obj fs) "geometry" (Json.obj []))
          "location" (Json.obj [])) "lat" (Json.str "N/A")),
       ("lng", getOr (getOr (getOr (Json.obj fs) "geometry" (Json.obj []))
          "location" (Json.obj [])) "lng" (Json.str "N/A"))]) := by
  rcases hgl : fs.lookup "geometry" with _ | gv
  · simp [formatGeometry, pyGet, getOr, hgl]
  · rw [hgl] at hg
    cases gv <;> simp [geometryOk] at hg
    case obj gs =>
    rcases hloc : gs.lookup "location" with _ | lv
    · simp [formatGeometry, pyGet, getOr, hgl, hloc]
    · rw [hloc] at hg
      cases lv <;> simp [isObjOpt] at hg
      case obj ls => simp [formatGeometry, pyGet, getOr, hgl, hloc]

/-- With a well-shaped (or absent) `opening_hours` field the
`open_now` extraction succeeds. -/
lemma formatOpenNow_wf (fs : List (String × Json))
    (hoh : isObjOpt (fs.lookup "opening_hours") = true) :
    formatOpenNow (Json.obj fs) =
      some (getOr (getOr (Json.obj fs) "opening_hours" (Json.obj []))
        "open_now" (Json.str "Unknown")) := by
  rcases hohl : fs.lookup "opening_hours" with _ | ov
  · simp [formatOpenNow, pyGet, getOr, hohl]
  · rw [hohl] at hoh
    cases ov <;> simp [isObjOpt] at hoh
    case obj os => simp [formatOpenNow, pyGet, getOr, hohl]

/-- With a list-shaped (or absent) `photos` field the has-photos flag
succeeds. -/
lemma formatPhotos_wf (fs : List (String × Json))
    (hph : isArrOpt (fs.lookup "photos") = true) :
    formatPhotos (Json.obj fs) =
      some (Json.bool (decide (0 < (photosList (Json.obj fs)).length))) := by
  rcases hphl : fs.lookup "photos" with _ | pv
  · simp [formatPhotos, pyGet, pyLen, photosList, jsonLookup, hphl]
  · rw [hphl] at hph
    cases pv <;> simp [isArrOpt] at hph
    case arr xs => simp [formatPhotos, pyGet, pyLen, photosList, jsonLookup, hphl]

/-- On a well-formed place record the formatter never fails and
produces exactly the `formatOut` dictionary. -/
lemma format_eq_of_wf (place : Json) (h : wellFormedPlace place = true) :
    format_place_info place = some (formatOut place) := by
  cases place with
  | obj fs =>
    simp only [wellFormedPlace, Bool.and_eq_true] at h
    obtain ⟨⟨hg, hoh⟩, hph⟩ := h
    rw [format_place_info, formatBasics_obj fs, formatGeometry_wf fs hg,
      formatOpenNow_wf fs hoh, formatPhotos_wf fs hph]
    rfl
  | null => simp [wellFormedPlace] at h
  | bool b => simp [wellFormedPlace] at h
  | num n => simp [wellFormedPlace] at h
  | str s => simp [wellFormedPlace] at h
  | arr xs => simp [wellFormedPlace] at h

/-- The has-photos flag is true exactly when the record holds a
nonempty `photos` list. -/
lemma photosFlag_iff (place : Json) :
    (decide (0 < (photosList place).length) = true) ↔
      ∃ xs, jsonLookup place "photos" = some (Json.arr xs) ∧ xs ≠ [] := by
  rw [decide_eq_true_iff]
  unfold photosList
  rcases hpl : jsonLookup place "photos" with _ | pv
  · simp
  · cases pv <;> simp [List.length_pos]

/-- C5: on every well-formed place record (any subset of fields may be
absent), `format_place_info` succeeds — no exception is possible — and
its output carries exactly the fixed key list, each key holding the
record's value or the documented sentinel (the `formatOut` table of
total getters).  The embedding is a pure function, mirroring the
side-effect-free source. -/
theorem format_place_info_never_raises (place : Json)
    (h : wellFormedPlace place = true) :
    ∃ out, format_place_info place = some out ∧
      out.map Prod.fst = formatKeys ∧ out = formatOut place :=
  ⟨formatOut place, format_eq_of_wf place h, rfl, rfl⟩

/-- Witness for `format_place_info_never_raises`: the empty record —
every optional field absent — formats successfully. -/
theorem format_place_info_never_raises_witness :
    wellFormedPlace (Json.obj []) = true ∧
    (∃ out, format_place_info (Json.obj []) = some out ∧
      out.map Prod.fst = formatKeys ∧ out = formatOut (Json.obj [])) :=
  ⟨rfl, format_place_info_never_raises (Json.obj []) rfl⟩

/-- C9: the `photos` entry of the formatted output is a boolean — a
has-photos flag, not a count — and it is `true` exactly when the input
record holds a nonempty `photos` list. -/
theorem format_place_info_photos_flag (place : Json)
    (h : wellFormedPlace place = true) :
    ∃ out b, format_place_info place = some out ∧
      List.lookup "photos" out = some (Json.bool b) ∧
      (b = true ↔ ∃ xs, jsonLookup place "photos" = some (Json.arr xs) ∧ xs ≠ []) :=
  ⟨formatOut place, decide (0 < (photosList place).length),
   format_eq_of_wf place h, rfl, photosFlag_iff place⟩

/-- Witness for `format_place_info_photos_flag` on a record with one
photo. -/
theorem format_place_info_photos_flag_witness :
    wellFormedPlace (Json.obj [("photos", Json.arr [Json.str "p"])]) = true ∧
    (∃ out b,
      format_place_info (Json.obj [("photos", Json.arr [Json.str "p"])]) = some out ∧
      List.lookup "photos" out = some (Json.bool b) ∧
      (b = true ↔ ∃ xs,
        jsonLookup (Json.obj [("photos", Json.arr [Json.str "p"])]) "photos" =
          some (Json.arr xs) ∧ xs ≠ [])) :=
  ⟨rfl, format_place_info_photos_flag (Json.obj [("photos", Json.arr [Json.str "p"])]) rfl⟩

/-! ## Lemmas about the multi-file loader -/

/-- The success counter of the loading loop is positive exactly when
some path loaded successfully. -/
lemma loadLoop_count_pos (fsys : String → LoadOutcome) :
    ∀ (paths : List String) (jd : List (String × Json)),
      (0 < (loadLoop fsys paths jd).2 ↔ ∃ p ∈ paths, isOkOutcome (fsys p) = true) := by
  intro paths
  induction paths with
  | nil => intro jd; simp [loadLoop]
  | cons p rest ih =>
    intro jd
    rcases hfp : fsys p with _ | _ | _ | d
    · simpa [loadLoop, hfp, isOkOutcome] using ih jd
    · simpa [loadLoop, hfp, isOkOutcome] using ih jd
    · simpa [loadLoop, hfp, isOkOutcome] using ih jd
    · simp [loadLoop, hfp, isOkOutcome]

/-- Failed paths have no effect on the loaded dictionary: the loop
computes the same dictionary as on the successful paths alone. -/
lemma loadLoop_skips_failures (fsys : String → LoadOutcome) :
    ∀ (paths : List String) (jd : List (String × Json)),
      (loadLoop fsys paths jd).1 =
        (loadLoop fsys (paths.filter fun p => isOkOutcome (fsys p)) jd).1 := by
  intro paths
  induction paths with
  | nil => intro jd; simp
  | cons p rest ih =>
    intro jd
    rcases hfp : fsys p with _ | _ | _ | d
    · simpa [loadLoop, hfp, isOkOutcome, List.filter_cons] using ih jd
    · simpa [loadLoop, hfp, isOkOutcome, List.filter_cons] using ih jd
    · simpa [loadLoop, hfp, isOkOutcome, List.filter_cons] using ih jd
    · simp only [loadLoop, hfp, isOkOutcome, List.filter_cons, if_pos]
      simpa [loadLoop, hfp] using ih (dictInsert jd (pathStem p) d)

/-- C7: `load_multiple_json_files` skips every per-file failure —
the loaded dictionary is exactly the one obtained from the successful
paths alone, so later files are processed regardless of earlier
failures — and it reports success exactly when at least one file
loaded. -/
theorem load_multiple_json_files_skips_and_flag
    (fsys : String → LoadOutcome) (file_paths : List String)
    (json_data : List (String × Json)) :
    ((load_multiple_json_files fsys file_paths json_data).2 = true ↔
      ∃ p ∈ file_paths, isOkOutcome (fsys p) = true) ∧
    (load_multiple_json_files fsys file_paths json_data).1 =
      (load_multiple_json_files fsys
        (file_paths.filter fun p => isOkOutcome (fsys p)) json_data).1 := by
  constructor
  · rw [load_multiple_json_files]
    simpa using loadLoop_count_pos fsys file_paths json_data
  · rw [load_multiple_json_files, load_multiple_json_files]
    simpa using loadLoop_skips_failures fsys file_paths json_data

/-- Two assignments to the same key: the second silently replaces the
first. -/
lemma dictInsert_dictInsert {α : Type} (l : List (String × α)) (k : String)
    (a b : α) : dictInsert (dictInsert l k a) k b = dictInsert l k b := by
  induction l with
  | nil => simp [dictInsert]
  | cons hd tl ih =>
    obtain ⟨k', v'⟩ := hd
    by_cases hk : k' = k
    · simp [dictInsert, hk]
    · simp [dictInsert, hk, ih]

/-- C10: loaded documents are keyed by filename stem, so two
successfully parsed paths with the same stem collide: the later file's
document replaces the earlier one in the loaded dictionary (the success
counter still counts both), and only the later document remains to
contribute rows downstream. -/
theorem load_same_stem_overwrites (fsys : String → LoadOutcome)
    (p1 p2 : String) (d1 d2 : Json) (jd : List (String × Json))
    (hstem : pathStem p1 = pathStem p2)
    (h1 : fsys p1 = .ok d1) (h2 : fsys p2 = .ok d2) :
    (load_multiple_json_files fsys [p1, p2] jd).1 =
      dictInsert jd (pathStem p2) d2 ∧
    (load_multiple_json_files fsys [p1, p2] jd).2 = true := by
  constructor
  · rw [load_multiple_json_files]
    simp only [loadLoop, h1, h2, hstem]
    exact dictInsert_dictInsert jd (pathStem p2) d1 d2
  · rw [load_multiple_json_files]
    simp [loadLoop, h1, h2]

/-- Filesystem oracle for the stem-collision witness: the same filename
in two different directories, with different contents. -/
def collideFs : String → LoadOutcome := fun p =>
  if p = "dir1/places.json" then .ok (Json.num 1)
  else if p = "dir2/places.json" then .ok (Json.num 2)
  else .notFound

/-- Witness for `load_same_stem_overwrites`: `dir1/places.json` and
`dir2/places.json` share the stem `places`; only the second document
survives. -/
theorem load_same_stem_overwrites_witness :
    pathStem "dir1/places.json" = pathStem "dir2/places.json" ∧
    collideFs "dir1/places.json" = .ok (Json.num 1) ∧
    collideFs "dir2/places.json" = .ok (Json.num 2) ∧
    ((load_multiple_json_files collideFs ["dir1/places.json", "dir2/places.json"] []).1 =
        dictInsert [] (pathStem "dir2/places.json") (Json.num 2) ∧
     (load_multiple_json_files collideFs ["dir1/places.json", "dir2/places.json"] []).2 = true) :=
  ⟨by decide, rfl, rfl,
   load_same_stem_overwrites collideFs "dir1/places.json" "dir2/places.json"
     (Json.num 1) (Json.num 2) [] (by decide) rfl rfl⟩

/-- C8: when the glob matches zero files, `load_from_directory` reports
failure without touching the loaded data, and the `__main__` pipeline
writes no output file: the combine step and the save step also report
failure. -/
theorem empty_glob_writes_nothing (fsys : String → LoadOutcome)
    (writeOk : Bool) (json_data : List (String × Json)) :
    load_from_directory [] fsys json_data = (json_data, false) ∧
    mainPipeline [] fsys writeOk = (false, false, false, none) :=
  ⟨rfl, rfl⟩

/-! ## Lemmas about shape normalization and concatenation -/

/-- If some field value is a list, the scan of lines 66–69 finds one. -/
lemma firstListValue_of_any (fs : List (String × Json))
    (h : fs.any (fun p => isArrVal p.2) = true) :
    ∃ xs, firstListValue fs = some xs := by
  induction fs with
  | nil => simp at h
  | cons hd tl ih =>
    obtain ⟨k, v⟩ := hd
    cases v with
    | arr xs => exact ⟨xs, rfl⟩
    | null => simpa [firstListValue, isArrVal] using ih (by simpa [isArrVal] using h)
    | bool b => simpa [firstListValue, isArrVal] using ih (by simpa [isArrVal] using h)
    | num n => simpa [firstListValue, isArrVal] using ih (by simpa [isArrVal] using h)
    | str s => simpa [firstListValue, isArrVal] using ih (by simpa [isArrVal] using h)
    | obj gs => simpa [firstListValue, isArrVal] using ih (by simpa [isArrVal] using h)

/-- C3: a loaded document that is a single mapping with at least one
list-valued field is normalized from the first such field in native key
order, every other field of the mapping being discarded; a mapping with
no list-valued field becomes a one-row table; in particular the single
object `{"k": [{"a":1},{"a":2}]}` yields a 2-row table. -/
theorem combine_first_list_field (fs : List (String × Json)) :
    (fs.any (fun p => isArrVal p.2) = true →
      ∃ xs, firstListValue fs = some xs ∧
        fileFrame (Json.obj fs) = json_normalize xs) ∧
    (fs.any (fun p => isArrVal p.2) = false →
      ∃ t, fileFrame (Json.obj fs) = some t ∧ t.rows.length = 1) ∧
    (fileFrame (Json.obj [("k", Json.arr [Json.obj [("a", Json.num 1)],
        Json.obj [("a", Json.num 2)]])])).map (fun t => t.rows.length) = some 2 := by
  refine ⟨?_, ?_, rfl⟩
  · intro hany
    obtain ⟨xs, hxs⟩ := firstListValue_of_any fs hany
    exact ⟨xs, hxs, by simp [fileFrame, hany, hxs]⟩
  · intro hany
    refine ⟨⟨unionKeys [flattenFields "" fs], [flattenFields "" fs]⟩, ?_, rfl⟩
    simp [fileFrame, hany, json_normalize, normalizeRows, rowOfRecord]

/-- Witness for `combine_first_list_field` at the spec's example
object. -/
theorem combine_first_list_field_witness :
    ([("k", Json.arr [Json.obj [("a", Json.num 1)], Json.obj [("a", Json.num 2)]])].any
        (fun p => isArrVal p.2) = true) ∧
    (∃ xs,
      firstListValue [("k", Json.arr [Json.obj [("a", Json.num 1)],
          Json.obj [("a", Json.num 2)]])] = some xs ∧
      fileFrame (Json.obj [("k", Json.arr [Json.obj [("a", Json.num 1)],
          Json.obj [("a", Json.num 2)]])]) = json_normalize xs) :=
  ⟨rfl,
   (combine_first_list_field
     [("k", Json.arr [Json.obj [("a", Json.num 1)], Json.obj [("a", Json.num 2)]])]).1 rfl⟩

/-- Membership after one column insertion. -/
lemma mem_insertNew (acc : List String) (k x : String) :
    x ∈ insertNew acc k ↔ x ∈ acc ∨ x = k := by
  by_cases h : acc.contains k
  · have hk : k ∈ acc := by simpa using h
    simp only [insertNew, if_pos h]
    constructor
    · exact Or.inl
    · rintro (hx | rfl)
      · exact hx
      · exact hk
  · have hk : k ∉ acc := by simpa using h
    simp [insertNew, h, hk]

/-- Membership after folding a key list into the accumulator. -/
lemma mem_foldl_insertNew (l : List String) :
    ∀ (acc : List String) (x : String),
      x ∈ l.foldl insertNew acc ↔ x ∈ acc ∨ x ∈ l := by
  induction l with
  | nil => simp
  | cons a l ih =>
    intro acc x
    simp only [List.foldl_cons, ih, mem_insertNew, List.mem_cons]
    tauto

/-- Membership in the unioned key list of a row set. -/
lemma mem_unionKeys (rows : List (List (String × Json))) (x : String) :
    x ∈ unionKeys rows ↔ ∃ r ∈ rows, x ∈ r.map Prod.fst := by
  have key : ∀ (acc : List String),
      x ∈ rows.foldl (fun acc r => (r.map Prod.fst).foldl insertNew acc) acc ↔
        x ∈ acc ∨ ∃ r ∈ rows, x ∈ r.map Prod.fst := by
    induction rows with
    | nil => simp
    | cons r rows ih =>
      intro acc
      simp only [List.foldl_cons, ih, mem_foldl_insertNew, List.mem_cons]
      constructor
      · rintro ((hx | hx) | ⟨r', hr', hx⟩)
        · exact Or.inl hx
        · exact Or.inr ⟨r, Or.inl rfl, hx⟩
        · exact Or.inr ⟨r', Or.inr hr', hx⟩
      · rintro (hx | ⟨r', hr' | hr', hx⟩)
        · exact Or.inl (Or.inl hx)
        · subst hr'; exact Or.inl (Or.inr hx)
        · exact Or.inr ⟨r', hr', hx⟩
  simpa [unionKeys] using key []

/-- A key absent from a row's key list looks up to `none` (a `NaN`
cell). -/
lemma lookup_eq_none_of_not_mem_keys {β : Type} (r : List (String × β))
    (k : String) (h : k ∉ r.map Prod.fst) : List.lookup k r = none := by
  induction r with
  | nil => rfl
  | cons hd tl ih =>
    obtain ⟨a, b⟩ := hd
    simp only [List.map_cons, List.mem_cons] at h
    push_neg at h
    have hka : (k == a) = false := beq_false_of_ne h.1
    simp [List.lookup, hka, ih h.2]

/-- Keys of a row after the provenance assignment. -/
lemma mem_keys_dictInsert {β : Type} (r : List (String × β)) (k : String)
    (v : β) (c : String) :
    c ∈ (dictInsert r k v).map Prod.fst ↔ c ∈ r.map Prod.fst ∨ c = k := by
  induction r with
  | nil => simp [dictInsert]
  | cons hd tl ih =>
    obtain ⟨a, b⟩ := hd
    by_cases hak : a = k
    · subst hak
      simp [dictInsert]
      tauto
    · simp only [dictInsert, if_neg hak, List.map_cons, List.mem_cons, ih]
      tauto

/-- A materialized row holds, at every column of the set, the filled
original cell. -/
lemma materializeRow_lookup (cols : List String)
    (r : List (String × Json)) (c : String) (hc : c ∈ cols) :
    List.lookup c (materializeRow cols r) = some (fillCell (List.lookup c r)) := by
  induction cols with
  | nil => simp at hc
  | cons a cols ih =>
    by_cases hca : c = a
    · subst hca
      simp [materializeRow, List.lookup]
    · have : c ∈ cols := by
        rcases List.mem_cons.mp hc with h | h
        · exact absurd h hca
        · exact h
      have hne : (c == a) = false := beq_false_of_ne hca
      simpa [materializeRow, List.lookup, hne] using ih this

/-- Every row of the frame only uses columns of the frame. -/
def rowsKeysSub (t : Table) : Prop :=
  ∀ r ∈ t.rows, ∀ c, c ∈ r.map Prod.fst → c ∈ t.cols

/-- Normalized frames satisfy `rowsKeysSub`. -/
lemma json_normalize_keys (records : List Json) (t : Table)
    (h : json_normalize records = some t) : rowsKeysSub t := by
  rw [json_normalize, Option.map_eq_some'] at h
  obtain ⟨rows, _, ht⟩ := h
  subst ht
  intro r hr c hc
  exact (mem_unionKeys rows c).mpr ⟨r, hr, hc⟩

/-- The provenance assignment preserves `rowsKeysSub`. -/
lemma addSourceColumn_keys (t : Table) (fn : String) (h : rowsKeysSub t) :
    rowsKeysSub (addSourceColumn t fn) := by
  intro r hr c hc
  simp only [addSourceColumn, List.mem_map] at hr
  obtain ⟨r0, hr0, rfl⟩ := hr
  rw [mem_keys_dictInsert] at hc
  rcases hc with hc | rfl
  · exact (mem_insertNew _ _ _).mpr (Or.inl (h r0 hr0 c hc))
  · exact (mem_insertNew _ _ _).mpr (Or.inr rfl)

/-- Every frame produced from a file satisfies `rowsKeysSub`. -/
lemma fileFrame_keys (j : Json) (t : Table) (h : fileFrame j = some t) :
    rowsKeysSub t := by
  cases j with
  | arr xs => exact json_normalize_keys xs t h
  | obj fs =>
    by_cases hany : fs.any (fun p => isArrVal p.2) = true
    · simp only [fileFrame, if_pos hany] at h
      rcases hfl : firstListValue fs with _ | xs
      · rw [hfl] at h; cases h
      · rw [hfl] at h; exact json_normalize_keys xs t h
    · simp only [fileFrame, if_neg hany] at h
      exact json_normalize_keys [Json.obj fs] t h
  | null => cases h
  | bool b => cases h
  | num n => cases h
  | str s => cases h

/-- Every frame of the combine loop satisfies `rowsKeysSub`. -/
lemma framesOf_keys (jd : List (String × Json)) (b : Bool) (f : Table)
    (hf : f ∈ framesOf jd b) : rowsKeysSub f := by
  simp only [framesOf, List.mem_filterMap] at hf
  obtain ⟨p, _, hpf⟩ := hf
  rw [Option.map_eq_some'] at hpf
  obtain ⟨t0, ht0, hft⟩ := hpf
  have h0 := fileFrame_keys p.2 t0 ht0
  cases b with
  | false => simp only [Bool.false_eq_true, if_false] at hft; subst hft; exact h0
  | true =>
    simp only [if_pos] at hft
    subst hft
    exact addSourceColumn_keys t0 p.1 h0

/-- The loaded data of the spec's two-file example:
`a.json = [{"x":1}]`, `b.json = [{"y":2}]`. -/
def exampleJd : List (String × Json) :=
  [("a", Json.arr [Json.obj [("x", Json.num 1)]]),
   ("b", Json.arr [Json.obj [("y", Json.num 2)]])]

/-- The merged table the spec expects for `exampleJd` with provenance
enabled. -/
def exampleTable : Table :=
  { cols := ["x", "source_file", "y"],
    rows := [[("x", Json.num 1), ("source_file", Json.str "a"), ("y", Json.str "")],
             [("x", Json.str ""), ("source_file", Json.str "b"), ("y", Json.num 2)]] }

/-- Evaluation of the combine step on the two-file example (the
flattener is defined by well-founded recursion, so the computation is
carried out by its equation lemmas). -/
lemma combine_example_eq : combine_json_data exampleJd true = some exampleTable := by
  simp [combine_json_data, framesOf, fileFrame, json_normalize, normalizeRows,
    rowOfRecord, flattenFields, unionKeys, insertNew, addSourceColumn, dictInsert,
    concatTables, materializeRow, fillCell, exampleJd, exampleTable, joinKey,
    List.lookup]

/-- C4: the combined table's columns are the union (in first-appearance
order) of the per-file frame columns — the provenance column included —
its rows are the concatenated per-file rows materialized over that
column set, and any column a source row does not carry is filled with
the empty-string sentinel; on the spec's two-file example this yields
exactly `exampleTable`. -/
theorem combine_unions_columns_and_fills (jd : List (String × Json))
    (t : Table) (h : combine_json_data jd true = some t) :
    t.cols = (framesOf jd true).foldl (fun acc f => f.cols.foldl insertNew acc) [] ∧
    t.rows = (((framesOf jd true).map Table.rows).flatten).map (materializeRow t.cols) ∧
    (∀ f ∈ framesOf jd true, ∀ r ∈ f.rows, ∀ c ∈ t.cols, c ∉ f.cols →
      List.lookup c (materializeRow t.cols r) = some (Json.str "")) ∧
    combine_json_data exampleJd true = some exampleTable := by
  simp only [combine_json_data] at h
  split_ifs at h with h1 h2
  cases h
  refine ⟨rfl, rfl, ?_, combine_example_eq⟩
  intro f hf r hr c hc hcf
  have hkeys := framesOf_keys jd true f hf
  have hnone : List.lookup c r = none := by
    apply lookup_eq_none_of_not_mem_keys
    intro hmem
    exact hcf (hkeys r hr c hmem)
  rw [materializeRow_lookup _ _ _ hc, hnone]
  rfl

/-- Witness for `combine_unions_columns_and_fills` at the spec's
two-file example. -/
theorem combine_unions_columns_and_fills_witness :
    combine_json_data exampleJd true = some exampleTable ∧
    (exampleTable.cols =
      (framesOf exampleJd true).foldl (fun acc f => f.cols.foldl insertNew acc) [] ∧
    exampleTable.rows =
      (((framesOf exampleJd true).map Table.rows).flatten).map
        (materializeRow exampleTable.cols) ∧
    (∀ f ∈ framesOf exampleJd true, ∀ r ∈ f.rows, ∀ c ∈ exampleTable.cols,
      c ∉ f.cols →
      List.lookup c (materializeRow exampleTable.cols r) = some (Json.str "")) ∧
    combine_json_data exampleJd true = some exampleTable) :=
  ⟨combine_example_eq,
   combine_unions_columns_and_fills exampleJd exampleTable combine_example_eq⟩
